import Mathlib

/-!
Shallow embedding of the game controller in `src/Core/Game.ts` of the
ceros-ski-typescript repository.

The controller owns the session clock, the viewport (`gameWindow`), the
score/maxScore counters and the RUNNING/GAME_OVER state machine, and it
sequences the update and draw calls of the external collaborators (skier,
rhino, obstacle manager, canvas, image manager).  The collaborators'
implementations live outside the controller source, so they are modelled
abstractly through an environment of function parameters, and the calls the
controller makes on them (together with canvas operations and clock sampling)
are recorded in an effect trace.
-/

namespace CerosSki

/-- The two controller states (`enum GameState` in Game.ts). -/
inductive GameState where
  | RUNNING
  | GAME_OVER
deriving DecidableEq, Repr

/-- Modelled from the spec: the viewport geometry leaf, "a rectangle type with
left/top/right/bottom" (`Rect` of Core/Utils, whose source is not part of the
controller file).  Scalars are rationals, exact for the arithmetic the
controller performs. -/
structure Rect where
  left : ℚ
  top : ℚ
  right : ℚ
  bottom : ℚ
deriving DecidableEq, Repr

/-- One observable effect of a controller call: a canvas operation, a call into
an external collaborator, or a sampling of the session clock
(`Date.now()`). -/
inductive Effect where
  | clearCanvas
  | setDrawOffset (x y : ℚ)
  | sampleClock (t : ℚ)
  | calcViewport
  | placeNewObstacleCall
  | skierUpdateCall (t : ℚ)
  | rhinoUpdateCall (t : ℚ)
  | drawSkier
  | drawRhino
  | drawObstacles
  | drawText (text : String) (x y : ℚ) (font color : String)
  | preventDefault
deriving DecidableEq, Repr

/-- Modelled from the spec: the contracts of the external collaborators
(player entity, pursuer entity, obstacle field: §6 of the spec) and the fixed
display dimensions `GAME_WIDTH`/`GAME_HEIGHT` of Constants.ts, none of which
are part of the controller source.  `σ`, `ρ`, `ω` are the skier, rhino and
obstacle-manager state types. -/
structure Env (σ ρ ω : Type) where
  W : ℚ
  H : ℚ
  skierInit : ℚ → ℚ → σ
  skierUpdate : ℚ → σ → σ
  skierPos : σ → ℚ × ℚ
  skierIsDead : σ → Bool
  skierHandleInput : String → σ → Bool × σ
  rhinoInit : ℚ → ℚ → ρ
  rhinoUpdate : ℚ → σ → ρ → ρ
  obstacleNew : ω
  placeInitialObstacles : ω → ω
  placeNewObstacle : Rect → Rect → ω → ω

/-- The mutable fields of the `Game` class.  `imageManager` is an identity
token: `init()` keeps the existing instance (`this.imageManager || new
ImageManager()`), so object identity is what matters to the model. -/
structure GameSt (σ ρ ω : Type) where
  gameTime : ℚ
  gameWindow : Rect
  imageManager : Nat
  obstacleManager : ω
  skier : σ
  rhino : ρ
  gameState : GameState
  score : ℚ
  maxScore : ℚ
deriving DecidableEq, Repr

variable {σ ρ ω : Type}

/-- `Game.calculateGameWindow`: the viewport is the W×H rectangle centered on
the skier's current position. -/
def calculateGameWindow (e : Env σ ρ ω) (g : GameSt σ ρ ω) : GameSt σ ρ ω :=
  let p := e.skierPos g.skier
  let l : ℚ := p.1 - e.W / 2
  let t : ℚ := p.2 - e.H / 2
  { g with gameWindow := ⟨l, t, l + e.W, t + e.H⟩ }

/-- `Game.saveMaxScore`: `maxScore = Math.max(score, maxScore)`. -/
def saveMaxScore (g : GameSt σ ρ ω) : GameSt σ ρ ω :=
  { g with maxScore := max g.score g.maxScore }

/-- `Game.updateScore`: `score += 0.5`. -/
def updateScore (g : GameSt σ ρ ω) : GameSt σ ρ ω :=
  { g with score := g.score + 1 / 2 }

/-- `Game.resetScore`: `score = 0`. -/
def resetScore (g : GameSt σ ρ ω) : GameSt σ ρ ω :=
  { g with score := 0 }

/-- `Game.updateGameWindow`: stamp the clock, recompute the viewport, let the
obstacle manager reconcile against the previous viewport, update the skier
then the rhino (both with the stamped time), then either perform the death
transition (state to GAME_OVER, `saveMaxScore` then `resetScore`) or
`updateScore`. -/
def updateGameWindow (e : Env σ ρ ω) (now : ℚ) (g : GameSt σ ρ ω) :
    GameSt σ ρ ω × List Effect :=
  let g1 := { g with gameTime := now }
  let previousGameWindow := g1.gameWindow
  let g2 := calculateGameWindow e g1
  let g3 := { g2 with
    obstacleManager := e.placeNewObstacle g2.gameWindow previousGameWindow g2.obstacleManager }
  let g4 := { g3 with skier := e.skierUpdate g3.gameTime g3.skier }
  let g5 := { g4 with rhino := e.rhinoUpdate g4.gameTime g4.skier g4.rhino }
  let effs : List Effect :=
    [.sampleClock now, .calcViewport, .placeNewObstacleCall,
     .skierUpdateCall now, .rhinoUpdateCall now]
  if e.skierIsDead g5.skier then
    (resetScore (saveMaxScore { g5 with gameState := .GAME_OVER }), effs)
  else
    (updateScore g5, effs)

/-- The score text built by `Game.drawScore` (both values floored for
display). -/
def scoreText (maxScore score : ℚ) : String :=
  "Max Score: " ++ toString maxScore.floor ++ "   Score: " ++ toString score.floor

/-- `Game.drawScore`: one text draw at the top right (`padding = 30`). -/
def drawScore (e : Env σ ρ ω) (g : GameSt σ ρ ω) : List Effect :=
  [.drawText (scoreText g.maxScore g.score) (e.W - 30 - 270) 30 "20px Arial" "black"]

/-- `Game.drawGameWindow`: set the draw offset from the viewport, draw skier,
rhino, obstacles, then the score overlay. -/
def drawGameWindow (e : Env σ ρ ω) (g : GameSt σ ρ ω) : List Effect :=
  [.setDrawOffset g.gameWindow.left g.gameWindow.top,
   .drawSkier, .drawRhino, .drawObstacles] ++ drawScore e g

/-- `Game.drawGameOver`: the two game-over text draws. -/
def drawGameOver (e : Env σ ρ ω) : List Effect :=
  [.drawText "Game Over!" (e.W / 2 - 100) (e.H / 2) "30px Roboto" "red",
   .drawText "Press Enter to restart" (e.W / 2 - 110) (e.H / 2 + 40) "20px Roboto" "green"]

/-- One invocation of `Game.run` (one frame advance), minus the
re-scheduling: in RUNNING clear the canvas, update, draw; otherwise draw only
the game-over overlay.  Returns the new state and the effect trace. -/
def run (e : Env σ ρ ω) (now : ℚ) (g : GameSt σ ρ ω) : GameSt σ ρ ω × List Effect :=
  if g.gameState = GameState.RUNNING then
    let r := updateGameWindow e now g
    (r.1, Effect.clearCanvas :: (r.2 ++ drawGameWindow e r.1))
  else
    (g, drawGameOver e)

/-- `Game.init`: new obstacle manager with initial obstacles, new skier at
(0, 0), new rhino at (−500, −2000), viewport recomputed, state RUNNING.  The
image manager is kept (`this.imageManager || new ImageManager()`), and score,
maxScore and gameTime are untouched. -/
def init (e : Env σ ρ ω) (g : GameSt σ ρ ω) : GameSt σ ρ ω :=
  let g1 := { g with
    obstacleManager := e.placeInitialObstacles e.obstacleNew,
    skier := e.skierInit 0 0,
    rhino := e.rhinoInit (-500) (-2000) }
  let g2 := calculateGameWindow e g1
  { g2 with gameState := GameState.RUNNING }

/-- Construction of a `Game`: fields initialized (`gameTime` from the clock,
score and maxScore zero, a fresh image-manager token), then `init()`. -/
def mkGame (e : Env σ ρ ω) (t0 : ℚ) (im : Nat) : GameSt σ ρ ω :=
  init e
    { gameTime := t0, gameWindow := ⟨0, 0, 0, 0⟩, imageManager := im,
      obstacleManager := e.obstacleNew, skier := e.skierInit 0 0,
      rhino := e.rhinoInit (-500) (-2000), gameState := GameState.RUNNING,
      score := 0, maxScore := 0 }

/-- `Game.restartGame`: `init()` then state RUNNING. -/
def restartGame (e : Env σ ρ ω) (g : GameSt σ ρ ω) : GameSt σ ρ ω :=
  { init e g with gameState := GameState.RUNNING }

/-- `Game.handleKeyDown`: in GAME_OVER the Enter key restarts (and prevents
the default); every other key, in any state, is forwarded to the skier's own
input handler, preventing the default when the skier handled it. -/
def handleKeyDown (e : Env σ ρ ω) (key : String) (g : GameSt σ ρ ω) :
    GameSt σ ρ ω × List Effect :=
  if g.gameState = GameState.GAME_OVER ∧ key = "Enter" then
    (restartGame e g, [.preventDefault])
  else
    let r := e.skierHandleInput key g.skier
    ({ g with skier := r.2 }, if r.1 then [.preventDefault] else [])

/-- The externally triggered operations of the controller: a frame advance at
a given clock reading, or a keydown event. -/
inductive Op where
  | frame (now : ℚ)
  | key (k : String)

/-- State transition of a single operation (effects discarded). -/
def step (e : Env σ ρ ω) : Op → GameSt σ ρ ω → GameSt σ ρ ω
  | .frame now, g => (run e now g).1
  | .key k, g => (handleKeyDown e k g).1

/-- Iterated transitions over a list of operations. -/
def steps (e : Env σ ρ ω) : List Op → GameSt σ ρ ω → GameSt σ ρ ω
  | [], g => g
  | op :: ops, g => steps e ops (step e op g)

/-- A run of frames at the given clock readings in which the skier never
reaches the dead state. -/
def noDeathRun (e : Env σ ρ ω) : List ℚ → GameSt σ ρ ω → Prop
  | [], _ => True
  | t :: ts, g =>
    e.skierIsDead (e.skierUpdate t g.skier) = false ∧
      noDeathRun e ts (step e (.frame t) g)

/-- Whether an effect is one of the draw calls of the game window
(entities, obstacles, or a text overlay). -/
def isDrawCall : Effect → Bool
  | .drawSkier => true
  | .drawRhino => true
  | .drawObstacles => true
  | .drawText _ _ _ _ _ => true
  | _ => false

/-- Whether an effect is a sampling of the session clock. -/
def isClockSample : Effect → Bool
  | .sampleClock _ => true
  | _ => false

/-- Whether an effect is one of the two entity update calls. -/
def isEntityUpdateCall : Effect → Bool
  | .skierUpdateCall _ => true
  | .rhinoUpdateCall _ => true
  | _ => false

/-- A concrete environment whose skier never dies and handles no input;
used to evaluate the model on concrete inputs. -/
def envAlive : Env Unit Unit Unit :=
  { W := 800, H := 600,
    skierInit := fun _ _ => (), skierUpdate := fun _ s => s,
    skierPos := fun _ => (0, 0), skierIsDead := fun _ => false,
    skierHandleInput := fun _ s => (false, s),
    rhinoInit := fun _ _ => (), rhinoUpdate := fun _ _ r => r,
    obstacleNew := (), placeInitialObstacles := id,
    placeNewObstacle := fun _ _ o => o }

/-- A concrete environment whose skier dies on its first update (the skier
state is the dead flag) and flips its state on the ArrowLeft key; used to
evaluate death transitions and input forwarding on concrete inputs. -/
def envDying : Env Bool Unit Unit :=
  { W := 800, H := 600,
    skierInit := fun _ _ => false, skierUpdate := fun _ _ => true,
    skierPos := fun _ => (0, 0), skierIsDead := fun s => s,
    skierHandleInput := fun k s => if k = "ArrowLeft" then (true, !s) else (false, s),
    rhinoInit := fun _ _ => (), rhinoUpdate := fun _ _ r => r,
    obstacleNew := (), placeInitialObstacles := id,
    placeNewObstacle := fun _ _ o => o }

/-! ### Helper lemmas -/

set_option maxRecDepth 10000

/-- The effect trace of `updateGameWindow` is the five collaborator calls. -/
theorem updateGameWindow_snd (e : Env σ ρ ω) (now : ℚ) (g : GameSt σ ρ ω) :
    (updateGameWindow e now g).2 =
      [.sampleClock now, .calcViewport, .placeNewObstacleCall,
       .skierUpdateCall now, .rhinoUpdateCall now] := by
  simp only [updateGameWindow]
  split <;> rfl

/-- The effect trace of a RUNNING frame: clear, the five update calls, then
the game-window draws of the updated state. -/
theorem run_running_snd (e : Env σ ρ ω) (now : ℚ) (g : GameSt σ ρ ω)
    (hrun : g.gameState = GameState.RUNNING) :
    (run e now g).2 =
      Effect.clearCanvas ::
        ([.sampleClock now, .calcViewport, .placeNewObstacleCall,
          .skierUpdateCall now, .rhinoUpdateCall now] ++
          drawGameWindow e (run e now g).1) := by
  simp only [run, hrun, if_pos, updateGameWindow_snd]

/-- On a RUNNING frame whose updated skier is dead, the frame performs the
death transition: state GAME_OVER, `maxScore` takes `max score maxScore`
(reading the pre-reset score), `score` cleared, and the remaining fields are
the updated ones. -/
theorem frame_dead_spec (e : Env σ ρ ω) (now : ℚ) (g : GameSt σ ρ ω)
    (hrun : g.gameState = GameState.RUNNING)
    (hdead : e.skierIsDead (e.skierUpdate now g.skier) = true) :
    (run e now g).1 =
      { gameTime := now,
        gameWindow := (calculateGameWindow e g).gameWindow,
        imageManager := g.imageManager,
        obstacleManager :=
          e.placeNewObstacle (calculateGameWindow e g).gameWindow g.gameWindow g.obstacleManager,
        skier := e.skierUpdate now g.skier,
        rhino := e.rhinoUpdate now (e.skierUpdate now g.skier) g.rhino,
        gameState := GameState.GAME_OVER,
        score := 0,
        maxScore := max g.score g.maxScore } := by
  simp only [run, hrun, if_pos, updateGameWindow, calculateGameWindow, hdead,
    saveMaxScore, resetScore, if_true]

/-- On a RUNNING frame whose updated skier is alive, the frame stays RUNNING,
increments the score by 1/2 and leaves `maxScore` alone. -/
theorem frame_alive_spec (e : Env σ ρ ω) (now : ℚ) (g : GameSt σ ρ ω)
    (hrun : g.gameState = GameState.RUNNING)
    (halive : e.skierIsDead (e.skierUpdate now g.skier) = false) :
    (run e now g).1 =
      { gameTime := now,
        gameWindow := (calculateGameWindow e g).gameWindow,
        imageManager := g.imageManager,
        obstacleManager :=
          e.placeNewObstacle (calculateGameWindow e g).gameWindow g.gameWindow g.obstacleManager,
        skier := e.skierUpdate now g.skier,
        rhino := e.rhinoUpdate now (e.skierUpdate now g.skier) g.rhino,
        gameState := GameState.RUNNING,
        score := g.score + 1 / 2,
        maxScore := g.maxScore } := by
  simp only [run, hrun, if_pos, updateGameWindow, calculateGameWindow, halive,
    updateScore, Bool.false_eq_true, if_false]

/-- A frame advance in GAME_OVER leaves the whole state unchanged. -/
theorem frame_gameOver_spec (e : Env σ ρ ω) (now : ℚ) (g : GameSt σ ρ ω)
    (hgo : g.gameState = GameState.GAME_OVER) :
    (run e now g).1 = g := by
  simp [run, hgo]

/-- No single operation decreases `maxScore`. -/
theorem maxScore_le_step (e : Env σ ρ ω) (op : Op) (g : GameSt σ ρ ω) :
    g.maxScore ≤ (step e op g).maxScore := by
  cases op with
  | frame now =>
    simp only [step, run]
    split
    · simp only [updateGameWindow, calculateGameWindow]
      split
      · dsimp only [resetScore, saveMaxScore]
        exact le_max_right _ _
      · dsimp only [updateScore]
        exact le_refl _
    · exact le_refl _
  | key k =>
    simp only [step, handleKeyDown]
    split
    · simp [restartGame, init, calculateGameWindow]
    · exact le_refl _

/-- No sequence of operations decreases `maxScore`. -/
theorem maxScore_le_steps (e : Env σ ρ ω) (ops : List Op) (g : GameSt σ ρ ω) :
    g.maxScore ≤ (steps e ops g).maxScore := by
  induction ops generalizing g with
  | nil => exact le_refl _
  | cons op ops ih => exact le_trans (maxScore_le_step e op g) (ih _)

/-- `restartGame` re-initializes the entities and viewport but keeps
`gameTime`, `imageManager`, `score` and `maxScore`. -/
theorem restartGame_spec (e : Env σ ρ ω) (g : GameSt σ ρ ω) :
    restartGame e g =
      { gameTime := g.gameTime,
        gameWindow :=
          ⟨(e.skierPos (e.skierInit 0 0)).1 - e.W / 2,
           (e.skierPos (e.skierInit 0 0)).2 - e.H / 2,
           (e.skierPos (e.skierInit 0 0)).1 - e.W / 2 + e.W,
           (e.skierPos (e.skierInit 0 0)).2 - e.H / 2 + e.H⟩,
        imageManager := g.imageManager,
        obstacleManager := e.placeInitialObstacles e.obstacleNew,
        skier := e.skierInit 0 0,
        rhino := e.rhinoInit (-500) (-2000),
        gameState := GameState.RUNNING,
        score := g.score,
        maxScore := g.maxScore } := by
  simp only [restartGame, init, calculateGameWindow]

/-- A key that is not the GAME_OVER Enter restart is forwarded to the skier's
input handler and changes nothing else. -/
theorem handleKeyDown_forward (e : Env σ ρ ω) (key : String) (g : GameSt σ ρ ω)
    (h : ¬(g.gameState = GameState.GAME_OVER ∧ key = "Enter")) :
    (handleKeyDown e key g).1 = { g with skier := (e.skierHandleInput key g.skier).2 } := by
  simp only [handleKeyDown, h, if_neg, not_false_iff]

/-- In GAME_OVER, the Enter key restarts the game. -/
theorem handleKeyDown_enter (e : Env σ ρ ω) (g : GameSt σ ρ ω)
    (hgo : g.gameState = GameState.GAME_OVER) :
    (handleKeyDown e "Enter" g).1 = restartGame e g := by
  simp [handleKeyDown, hgo]

/-- The GAME_OVER states of the controller carry a zero score (the death
transition clears the score and nothing modifies it until restart). -/
def ScoreInv (g : GameSt σ ρ ω) : Prop :=
  g.gameState = GameState.GAME_OVER → g.score = 0

/-- Every operation preserves the zero-score-in-GAME_OVER invariant. -/
theorem scoreInv_step (e : Env σ ρ ω) (op : Op) (g : GameSt σ ρ ω)
    (h : ScoreInv g) : ScoreInv (step e op g) := by
  cases op with
  | frame now =>
    simp only [step, run]
    split
    · simp only [updateGameWindow, calculateGameWindow]
      split
      · intro _
        rfl
      · intro hcontra
        simp only [updateScore] at hcontra
        simp_all [ScoreInv]
    · exact h
  | key k =>
    simp only [step, handleKeyDown]
    split
    · intro hcontra
      simp only [restartGame] at hcontra
      exact nomatch hcontra
    · intro hgo
      exact h hgo

/-- The invariant holds along every operation sequence. -/
theorem scoreInv_steps (e : Env σ ρ ω) (ops : List Op) (g : GameSt σ ρ ω)
    (h : ScoreInv g) : ScoreInv (steps e ops g) := by
  induction ops generalizing g with
  | nil => exact h
  | cons op ops ih => exact ih _ (scoreInv_step e op g h)

/-- A freshly constructed game satisfies the invariant (it starts RUNNING
with a zero score). -/
theorem scoreInv_mkGame (e : Env σ ρ ω) (t0 : ℚ) (im : Nat) :
    ScoreInv (mkGame e t0 im) := by
  intro _
  rfl

/-! ### Claim theorems -/

/-- C2: for every player position (x, y), the viewport computed by
`calculateGameWindow` is the rectangle with `left = x − W/2`,
`top = y − H/2`, `right − left = W` and `bottom − top = H`, where W and H are
the fixed display dimensions. -/
theorem c2_viewport_centered (e : Env σ ρ ω) (g : GameSt σ ρ ω) :
    (calculateGameWindow e g).gameWindow.left = (e.skierPos g.skier).1 - e.W / 2 ∧
    (calculateGameWindow e g).gameWindow.top = (e.skierPos g.skier).2 - e.H / 2 ∧
    (calculateGameWindow e g).gameWindow.right - (calculateGameWindow e g).gameWindow.left = e.W ∧
    (calculateGameWindow e g).gameWindow.bottom - (calculateGameWindow e g).gameWindow.top = e.H := by
  refine ⟨rfl, rfl, ?_, ?_⟩ <;> simp [calculateGameWindow]

/-- C9: `maxScore` is monotonically nondecreasing over the whole process
lifetime: no sequence of controller operations (frame advances at any clock
readings, key events, and the restarts and death transitions they trigger)
ever decreases it. -/
theorem c9_maxScore_monotone (e : Env σ ρ ω) (ops : List Op) (g : GameSt σ ρ ω) :
    g.maxScore ≤ (steps e ops g).maxScore :=
  maxScore_le_steps e ops g

/-- C10: a frame advance in GAME_OVER leaves the state untouched (in
particular the canvas is not cleared and `gameTime` is not re-sampled) and
its only effects are the two game-over text draws. -/
theorem c10_gameOver_frame (e : Env σ ρ ω) (now : ℚ) (g : GameSt σ ρ ω)
    (hgo : g.gameState = GameState.GAME_OVER) :
    run e now g =
      (g, [Effect.drawText "Game Over!" (e.W / 2 - 100) (e.H / 2) "30px Roboto" "red",
           Effect.drawText "Press Enter to restart" (e.W / 2 - 110) (e.H / 2 + 40)
             "20px Roboto" "green"]) := by
  simp [run, hgo, drawGameOver]

/-- Witness for C10 at a concrete GAME_OVER state reached by one dying
frame. -/
theorem c10_gameOver_frame_witness :
    (step envDying (Op.frame 1) (mkGame envDying 0 0)).gameState = GameState.GAME_OVER ∧
    run envDying 2 (step envDying (Op.frame 1) (mkGame envDying 0 0)) =
      (step envDying (Op.frame 1) (mkGame envDying 0 0),
       [Effect.drawText "Game Over!" (envDying.W / 2 - 100) (envDying.H / 2) "30px Roboto" "red",
        Effect.drawText "Press Enter to restart" (envDying.W / 2 - 110) (envDying.H / 2 + 40)
          "20px Roboto" "green"]) :=
  ⟨by with_unfolding_all decide,
   c10_gameOver_frame envDying 2 _ (by with_unfolding_all decide)⟩

/-- C1 counterexample: on a concrete RUNNING frame the first three draw calls
are skier, rhino, obstacles — not the obstacle field first as the claim
states. -/
theorem c1_draw_order_counterexample :
    ((run envAlive 0 (mkGame envAlive 0 0)).2.filter isDrawCall).take 3 =
      [Effect.drawSkier, Effect.drawRhino, Effect.drawObstacles] ∧
    ((run envAlive 0 (mkGame envAlive 0 0)).2.filter isDrawCall).take 3 ≠
      [Effect.drawObstacles, Effect.drawSkier, Effect.drawRhino] := by
  with_unfolding_all decide

/-- C1 (amended): in every RUNNING frame, after updating entities and score,
the controller draws the player first, then the pursuer, then the obstacle
field, and finally the score overlay, in exactly that order. -/
theorem c1_draw_order (e : Env σ ρ ω) (now : ℚ) (g : GameSt σ ρ ω)
    (hrun : g.gameState = GameState.RUNNING) :
    (run e now g).2.filter isDrawCall =
      [Effect.drawSkier, Effect.drawRhino, Effect.drawObstacles,
       Effect.drawText (scoreText (run e now g).1.maxScore (run e now g).1.score)
         (e.W - 30 - 270) 30 "20px Arial" "black"] := by
  rw [run_running_snd e now g hrun]
  simp [drawGameWindow, drawScore, isDrawCall, List.filter_append, List.filter]

/-- Witness for C1 (amended) on a concrete RUNNING frame. -/
theorem c1_draw_order_witness :
    (mkGame envAlive 0 0).gameState = GameState.RUNNING ∧
    (run envAlive 0 (mkGame envAlive 0 0)).2.filter isDrawCall =
      [Effect.drawSkier, Effect.drawRhino, Effect.drawObstacles,
       Effect.drawText
         (scoreText (run envAlive 0 (mkGame envAlive 0 0)).1.maxScore
           (run envAlive 0 (mkGame envAlive 0 0)).1.score)
         (envAlive.W - 30 - 270) 30 "20px Arial" "black"] :=
  ⟨rfl, c1_draw_order envAlive 0 (mkGame envAlive 0 0) rfl⟩

/-- C5 counterexample: after one surviving frame from a fresh game (a
reachable state), the in-progress run's score strictly exceeds `maxScore`,
so `maxScore` is not ≥ every value `score` has ever held. -/
theorem c5_counterexample :
    (steps envAlive [Op.frame 1] (mkGame envAlive 0 0)).maxScore <
      (steps envAlive [Op.frame 1] (mkGame envAlive 0 0)).score := by
  with_unfolding_all decide

/-- C5 (amended): `maxScore` dominates every completed run's final score: if
a death transition fires with run score S, then at every later state
`maxScore ≥ S` (the in-progress run's score, by the counterexample, may
exceed `maxScore`). -/
theorem c5_maxScore_dominates_completed_runs (e : Env σ ρ ω) (g0 : GameSt σ ρ ω)
    (ops1 ops2 : List Op) (t : ℚ)
    (hrun : (steps e ops1 g0).gameState = GameState.RUNNING)
    (hdead : e.skierIsDead (e.skierUpdate t (steps e ops1 g0).skier) = true) :
    (steps e ops1 g0).score ≤
      (steps e ops2 (step e (.frame t) (steps e ops1 g0))).maxScore := by
  have h1 : (step e (.frame t) (steps e ops1 g0)).maxScore =
      max (steps e ops1 g0).score (steps e ops1 g0).maxScore := by
    show ((run e t _).1).maxScore = _
    rw [frame_dead_spec e t _ hrun hdead]
  calc (steps e ops1 g0).score
      ≤ (step e (.frame t) (steps e ops1 g0)).maxScore := by
        rw [h1]
        exact le_max_left _ _
    _ ≤ _ := maxScore_le_steps e ops2 _

/-- Witness for C5 (amended): a fresh game dies on its first frame; after a
restart and one more frame, `maxScore` still dominates the dead run's
score. -/
theorem c5_maxScore_dominates_completed_runs_witness :
    (steps envDying [] (mkGame envDying 0 0)).gameState = GameState.RUNNING ∧
    envDying.skierIsDead
      (envDying.skierUpdate 1 (steps envDying [] (mkGame envDying 0 0)).skier) = true ∧
    (steps envDying [] (mkGame envDying 0 0)).score ≤
      (steps envDying [Op.key "Enter", Op.frame 2]
        (step envDying (.frame 1) (steps envDying [] (mkGame envDying 0 0)))).maxScore :=
  ⟨rfl, by with_unfolding_all decide,
   c5_maxScore_dominates_completed_runs envDying (mkGame envDying 0 0)
     [] [Op.key "Enter", Op.frame 2] 1 rfl (by with_unfolding_all decide)⟩

/-- C3: when the updated skier is dead on a RUNNING frame, the frame moves to
GAME_OVER, sets `maxScore` to the max of the old `maxScore` and the run's
score (reading the score before it is cleared), and clears the score; the
per-frame increment is not applied that frame. -/
theorem c3_death_transition (e : Env σ ρ ω) (now : ℚ) (g : GameSt σ ρ ω)
    (hrun : g.gameState = GameState.RUNNING)
    (hdead : e.skierIsDead (e.skierUpdate now g.skier) = true) :
    (run e now g).1.gameState = GameState.GAME_OVER ∧
    (run e now g).1.maxScore = max g.score g.maxScore ∧
    (run e now g).1.score = 0 := by
  rw [frame_dead_spec e now g hrun hdead]
  exact ⟨rfl, rfl, rfl⟩

/-- Witness for C3: a fresh game whose skier dies on the first frame. -/
theorem c3_death_transition_witness :
    (mkGame envDying 0 0).gameState = GameState.RUNNING ∧
    envDying.skierIsDead (envDying.skierUpdate 1 (mkGame envDying 0 0).skier) = true ∧
    ((run envDying 1 (mkGame envDying 0 0)).1.gameState = GameState.GAME_OVER ∧
     (run envDying 1 (mkGame envDying 0 0)).1.maxScore =
       max (mkGame envDying 0 0).score (mkGame envDying 0 0).maxScore ∧
     (run envDying 1 (mkGame envDying 0 0)).1.score = 0) :=
  ⟨rfl, by with_unfolding_all decide,
   c3_death_transition envDying 1 (mkGame envDying 0 0) rfl (by with_unfolding_all decide)⟩

/-- C4: over N consecutive RUNNING frames in which the skier never reaches
the dead state, the score grows by exactly N × 1/2 from its starting value
and `maxScore` is unchanged. -/
theorem c4_score_accrual (e : Env σ ρ ω) (ts : List ℚ) (g : GameSt σ ρ ω)
    (hrun : g.gameState = GameState.RUNNING)
    (hnd : noDeathRun e ts g) :
    (steps e (ts.map Op.frame) g).score = g.score + (ts.length : ℚ) * (1 / 2) ∧
    (steps e (ts.map Op.frame) g).maxScore = g.maxScore := by
  induction ts generalizing g with
  | nil => simp [steps]
  | cons t ts ih =>
    obtain ⟨halive, hnd'⟩ := hnd
    have hspec : step e (.frame t) g =
        { gameTime := t,
          gameWindow := (calculateGameWindow e g).gameWindow,
          imageManager := g.imageManager,
          obstacleManager :=
            e.placeNewObstacle (calculateGameWindow e g).gameWindow g.gameWindow g.obstacleManager,
          skier := e.skierUpdate t g.skier,
          rhino := e.rhinoUpdate t (e.skierUpdate t g.skier) g.rhino,
          gameState := GameState.RUNNING,
          score := g.score + 1 / 2,
          maxScore := g.maxScore } :=
      frame_alive_spec e t g hrun halive
    have h1 : (step e (.frame t) g).gameState = GameState.RUNNING := by rw [hspec]
    obtain ⟨ihs, ihm⟩ := ih (step e (.frame t) g) h1 hnd'
    constructor
    · show (steps e (ts.map Op.frame) (step e (.frame t) g)).score = _
      rw [ihs, hspec, List.length_cons]
      push_cast
      ring
    · show (steps e (ts.map Op.frame) (step e (.frame t) g)).maxScore = _
      rw [ihm, hspec]

/-- Witness for C4: three surviving frames from a fresh game accrue a score
of 3 × 1/2 with `maxScore` untouched. -/
theorem c4_score_accrual_witness :
    (mkGame envAlive 0 0).gameState = GameState.RUNNING ∧
    noDeathRun envAlive [1, 2, 3] (mkGame envAlive 0 0) ∧
    ((steps envAlive ([1, 2, 3].map Op.frame) (mkGame envAlive 0 0)).score =
       (mkGame envAlive 0 0).score + (([1, 2, 3] : List ℚ).length : ℚ) * (1 / 2) ∧
     (steps envAlive ([1, 2, 3].map Op.frame) (mkGame envAlive 0 0)).maxScore =
       (mkGame envAlive 0 0).maxScore) :=
  ⟨rfl, ⟨rfl, rfl, rfl, trivial⟩,
   c4_score_accrual envAlive [1, 2, 3] (mkGame envAlive 0 0) rfl ⟨rfl, rfl, rfl, trivial⟩⟩

/-- C6 counterexample: in a concrete GAME_OVER state, a non-Enter key event
is still forwarded to the skier's input handler and mutates the skier
entity, contradicting "mutates neither score, maxScore, nor any entity". -/
theorem c6_counterexample :
    (step envDying (Op.frame 1) (mkGame envDying 0 0)).gameState = GameState.GAME_OVER ∧
    (handleKeyDown envDying "ArrowLeft"
        (step envDying (Op.frame 1) (mkGame envDying 0 0))).1.skier ≠
      (step envDying (Op.frame 1) (mkGame envDying 0 0)).skier := by
  with_unfolding_all decide

/-- C6 (amended): from GAME_OVER, only the Enter key transitions to RUNNING;
every other key leaves the state at GAME_OVER with score, maxScore, pursuer,
obstacle field and viewport unchanged, but is forwarded to the player
entity's input handler (which may mutate the player); a frame advance leaves
the whole state unchanged. -/
theorem c6_gameOver_closure (e : Env σ ρ ω) (g : GameSt σ ρ ω) (key : String) (now : ℚ)
    (hgo : g.gameState = GameState.GAME_OVER) (hk : key ≠ "Enter") :
    (handleKeyDown e key g).1.gameState = GameState.GAME_OVER ∧
    (handleKeyDown e key g).1.score = g.score ∧
    (handleKeyDown e key g).1.maxScore = g.maxScore ∧
    (handleKeyDown e key g).1.rhino = g.rhino ∧
    (handleKeyDown e key g).1.obstacleManager = g.obstacleManager ∧
    (handleKeyDown e key g).1.gameWindow = g.gameWindow ∧
    (handleKeyDown e key g).1.skier = (e.skierHandleInput key g.skier).2 ∧
    (handleKeyDown e "Enter" g).1.gameState = GameState.RUNNING ∧
    (run e now g).1 = g := by
  have hne : ¬(g.gameState = GameState.GAME_OVER ∧ key = "Enter") := fun h => hk h.2
  rw [handleKeyDown_forward e key g hne]
  refine ⟨hgo, rfl, rfl, rfl, rfl, rfl, rfl, ?_, frame_gameOver_spec e now g hgo⟩
  rw [handleKeyDown_enter e g hgo, restartGame_spec]

/-- Witness for C6 (amended) at a concrete GAME_OVER state and the
ArrowLeft key. -/
theorem c6_gameOver_closure_witness :
    (step envDying (Op.frame 1) (mkGame envDying 0 0)).gameState = GameState.GAME_OVER ∧
    ("ArrowLeft" : String) ≠ "Enter" ∧
    ((handleKeyDown envDying "ArrowLeft"
        (step envDying (Op.frame 1) (mkGame envDying 0 0))).1.gameState =
      GameState.GAME_OVER ∧
     (handleKeyDown envDying "ArrowLeft"
        (step envDying (Op.frame 1) (mkGame envDying 0 0))).1.score =
      (step envDying (Op.frame 1) (mkGame envDying 0 0)).score ∧
     (handleKeyDown envDying "ArrowLeft"
        (step envDying (Op.frame 1) (mkGame envDying 0 0))).1.maxScore =
      (step envDying (Op.frame 1) (mkGame envDying 0 0)).maxScore ∧
     (handleKeyDown envDying "ArrowLeft"
        (step envDying (Op.frame 1) (mkGame envDying 0 0))).1.rhino =
      (step envDying (Op.frame 1) (mkGame envDying 0 0)).rhino ∧
     (handleKeyDown envDying "ArrowLeft"
        (step envDying (Op.frame 1) (mkGame envDying 0 0))).1.obstacleManager =
      (step envDying (Op.frame 1) (mkGame envDying 0 0)).obstacleManager ∧
     (handleKeyDown envDying "ArrowLeft"
        (step envDying (Op.frame 1) (mkGame envDying 0 0))).1.gameWindow =
      (step envDying (Op.frame 1) (mkGame envDying 0 0)).gameWindow ∧
     (handleKeyDown envDying "ArrowLeft"
        (step envDying (Op.frame 1) (mkGame envDying 0 0))).1.skier =
      (envDying.skierHandleInput "ArrowLeft"
        (step envDying (Op.frame 1) (mkGame envDying 0 0)).skier).2 ∧
     (handleKeyDown envDying "Enter"
        (step envDying (Op.frame 1) (mkGame envDying 0 0))).1.gameState =
      GameState.RUNNING ∧
     (run envDying 2 (step envDying (Op.frame 1) (mkGame envDying 0 0))).1 =
      step envDying (Op.frame 1) (mkGame envDying 0 0)) :=
  ⟨by with_unfolding_all decide, by decide,
   c6_gameOver_closure envDying (step envDying (Op.frame 1) (mkGame envDying 0 0))
     "ArrowLeft" 2 (by with_unfolding_all decide) (by decide)⟩

/-- C7: pressing Enter in any reachable GAME_OVER state restarts the game:
state RUNNING, score 0, `maxScore` retained, a new skier constructed at the
origin with the viewport recomputed to be centered on it, and the image
manager kept (not recreated). -/
theorem c7_restart (e : Env σ ρ ω) (t0 : ℚ) (im : Nat) (ops : List Op)
    (hgo : (steps e ops (mkGame e t0 im)).gameState = GameState.GAME_OVER) :
    (handleKeyDown e "Enter" (steps e ops (mkGame e t0 im))).1.gameState =
      GameState.RUNNING ∧
    (handleKeyDown e "Enter" (steps e ops (mkGame e t0 im))).1.score = 0 ∧
    (handleKeyDown e "Enter" (steps e ops (mkGame e t0 im))).1.maxScore =
      (steps e ops (mkGame e t0 im)).maxScore ∧
    (handleKeyDown e "Enter" (steps e ops (mkGame e t0 im))).1.skier = e.skierInit 0 0 ∧
    (handleKeyDown e "Enter" (steps e ops (mkGame e t0 im))).1.imageManager =
      (steps e ops (mkGame e t0 im)).imageManager ∧
    (handleKeyDown e "Enter" (steps e ops (mkGame e t0 im))).1.gameWindow =
      ⟨(e.skierPos (e.skierInit 0 0)).1 - e.W / 2,
       (e.skierPos (e.skierInit 0 0)).2 - e.H / 2,
       (e.skierPos (e.skierInit 0 0)).1 - e.W / 2 + e.W,
       (e.skierPos (e.skierInit 0 0)).2 - e.H / 2 + e.H⟩ := by
  have hscore : (steps e ops (mkGame e t0 im)).score = 0 :=
    scoreInv_steps e ops _ (scoreInv_mkGame e t0 im) hgo
  rw [handleKeyDown_enter e _ hgo, restartGame_spec]
  exact ⟨rfl, hscore, rfl, rfl, rfl, rfl⟩

/-- Witness for C7: restart after a first-frame death. -/
theorem c7_restart_witness :
    (steps envDying [Op.frame 1] (mkGame envDying 0 0)).gameState = GameState.GAME_OVER ∧
    ((handleKeyDown envDying "Enter" (steps envDying [Op.frame 1] (mkGame envDying 0 0))).1.gameState =
       GameState.RUNNING ∧
     (handleKeyDown envDying "Enter" (steps envDying [Op.frame 1] (mkGame envDying 0 0))).1.score = 0 ∧
     (handleKeyDown envDying "Enter" (steps envDying [Op.frame 1] (mkGame envDying 0 0))).1.maxScore =
       (steps envDying [Op.frame 1] (mkGame envDying 0 0)).maxScore ∧
     (handleKeyDown envDying "Enter" (steps envDying [Op.frame 1] (mkGame envDying 0 0))).1.skier =
       envDying.skierInit 0 0 ∧
     (handleKeyDown envDying "Enter" (steps envDying [Op.frame 1] (mkGame envDying 0 0))).1.imageManager =
       (steps envDying [Op.frame 1] (mkGame envDying 0 0)).imageManager ∧
     (handleKeyDown envDying "Enter" (steps envDying [Op.frame 1] (mkGame envDying 0 0))).1.gameWindow =
       ⟨(envDying.skierPos (envDying.skierInit 0 0)).1 - envDying.W / 2,
        (envDying.skierPos (envDying.skierInit 0 0)).2 - envDying.H / 2,
        (envDying.skierPos (envDying.skierInit 0 0)).1 - envDying.W / 2 + envDying.W,
        (envDying.skierPos (envDying.skierInit 0 0)).2 - envDying.H / 2 + envDying.H⟩) :=
  ⟨by with_unfolding_all decide,
   c7_restart envDying 0 0 [Op.frame 1] (by with_unfolding_all decide)⟩

/-- C8: on every RUNNING frame the session clock is sampled exactly once
(with the frame's timestamp), the trace orders the clock sample, viewport
recomputation, obstacle reconciliation, skier update and rhino update in
that order, both entity updates receive that single timestamp, and the
post-state shows the obstacle field reconciled against the previous
viewport and the rhino updated from the freshly updated skier. -/
theorem c8_frame_sequencing (e : Env σ ρ ω) (now : ℚ) (g : GameSt σ ρ ω)
    (hrun : g.gameState = GameState.RUNNING) :
    (run e now g).2.filter isClockSample = [Effect.sampleClock now] ∧
    (run e now g).2.filter isEntityUpdateCall =
      [Effect.skierUpdateCall now, Effect.rhinoUpdateCall now] ∧
    [Effect.sampleClock now, Effect.calcViewport, Effect.placeNewObstacleCall,
     Effect.skierUpdateCall now, Effect.rhinoUpdateCall now].Sublist (run e now g).2 ∧
    (run e now g).1.obstacleManager =
      e.placeNewObstacle (calculateGameWindow e g).gameWindow g.gameWindow g.obstacleManager ∧
    (run e now g).1.skier = e.skierUpdate now g.skier ∧
    (run e now g).1.rhino = e.rhinoUpdate now (e.skierUpdate now g.skier) g.rhino := by
  refine ⟨?_, ?_, ?_, ?_⟩
  · rw [run_running_snd e now g hrun]
    simp [drawGameWindow, drawScore, isClockSample, List.filter_append, List.filter]
  · rw [run_running_snd e now g hrun]
    simp [drawGameWindow, drawScore, isEntityUpdateCall, List.filter_append, List.filter]
  · rw [run_running_snd e now g hrun]
    exact (List.sublist_append_left _ _).cons _
  · cases hd : e.skierIsDead (e.skierUpdate now g.skier) with
    | true =>
      rw [frame_dead_spec e now g hrun hd]
      exact ⟨rfl, rfl, rfl⟩
    | false =>
      rw [frame_alive_spec e now g hrun hd]
      exact ⟨rfl, rfl, rfl⟩

/-- Witness for C8 on a concrete RUNNING frame. -/
theorem c8_frame_sequencing_witness :
    (mkGame envAlive 0 0).gameState = GameState.RUNNING ∧
    ((run envAlive 5 (mkGame envAlive 0 0)).2.filter isClockSample =
       [Effect.sampleClock 5] ∧
     (run envAlive 5 (mkGame envAlive 0 0)).2.filter isEntityUpdateCall =
       [Effect.skierUpdateCall 5, Effect.rhinoUpdateCall 5] ∧
     [Effect.sampleClock 5, Effect.calcViewport, Effect.placeNewObstacleCall,
      Effect.skierUpdateCall 5, Effect.rhinoUpdateCall 5].Sublist
       (run envAlive 5 (mkGame envAlive 0 0)).2 ∧
     (run envAlive 5 (mkGame envAlive 0 0)).1.obstacleManager =
       envAlive.placeNewObstacle
         (calculateGameWindow envAlive (mkGame envAlive 0 0)).gameWindow
         (mkGame envAlive 0 0).gameWindow (mkGame envAlive 0 0).obstacleManager ∧
     (run envAlive 5 (mkGame envAlive 0 0)).1.skier =
       envAlive.skierUpdate 5 (mkGame envAlive 0 0).skier ∧
     (run envAlive 5 (mkGame envAlive 0 0)).1.rhino =
       envAlive.rhinoUpdate 5 (envAlive.skierUpdate 5 (mkGame envAlive 0 0).skier)
         (mkGame envAlive 0 0).rhino) :=
  ⟨rfl, c8_frame_sequencing envAlive 5 (mkGame envAlive 0 0) rfl⟩

end CerosSki
